import Mathlib

/-!
Verification of `aimakerspace/text_utils.py`: the character-based text
splitter, the text-file loader and the YouTube transcript loader.

Python strings are modelled as `List Char` (character sequences) for the
splitter, and as Lean `String` for the loaders.  External effects (the
filesystem, the oEmbed HTTP endpoint, the transcript API) are passed in
explicitly as oracles; a fallible Python call is an `Except String`
value (`.error e` models the call raising an exception with message
rendering `e`).
-/

set_option autoImplicit false

namespace TextUtils

/-! ### CharacterTextSplitter -/

/-- Python's `range(0, stop, step)` for `step > 0`: the ascending list
`[0, step, 2*step, ...]` of all multiples of `step` below `stop`
(the Python docs define `r[i] = step*i` subject to `r[i] < stop`;
its length is `⌈stop/step⌉`).  `step = 0` is unreachable through the
guarded constructor below (Python raises there). -/
def rangeStep (stop step : Nat) : List Nat :=
  (List.range ((stop + step - 1) / step)).map (fun k => k * step)

/-- The splitter's configuration, as stored on `self` after the
constructor's assert has passed (`chunk_size > chunk_overlap`, with the
spec's data model restricting to `chunk_size > 0`, `chunk_overlap ≥ 0`). -/
structure CharacterTextSplitter where
  chunk_size : Nat
  chunk_overlap : Nat
  deriving Repr, DecidableEq

/-- `CharacterTextSplitter.__init__(chunk_size, chunk_overlap)`: the
`assert chunk_size > chunk_overlap` either passes, yielding the
configured splitter, or raises `AssertionError` with the given message.
Parameters are Python integers; on the (claim-relevant) domain of
non-negative parameters `Int.toNat` is the identity. -/
def CharacterTextSplitter.init (chunk_size chunk_overlap : Int) :
    Except String CharacterTextSplitter :=
  if chunk_size > chunk_overlap then
    .ok ⟨chunk_size.toNat, chunk_overlap.toNat⟩
  else
    .error "Chunk size must be greater than chunk overlap"

/-- `CharacterTextSplitter.split(text)`:
`for i in range(0, len(text), self.chunk_size - self.chunk_overlap):
chunks.append(text[i : i + self.chunk_size])`.  The slice
`text[i : i + chunk_size]` (with `0 ≤ i`) is `(text.drop i).take chunk_size`. -/
def CharacterTextSplitter.split (sp : CharacterTextSplitter) (text : List Char) :
    List (List Char) :=
  (rangeStep text.length (sp.chunk_size - sp.chunk_overlap)).map
    (fun i => (text.drop i).take sp.chunk_size)

/-- Counting lemma for the ceiling division used by `rangeStep`. -/
theorem lt_ceilDiv_iff (len s k : Nat) (hs : 0 < s) :
    k < (len + s - 1) / s ↔ k * s < len := by
  rw [Nat.lt_iff_add_one_le, Nat.le_div_iff_mul_le hs]
  have h : (k + 1) * s = k * s + s := by ring
  rw [h]
  generalize k * s = m
  omega

theorem rangeStep_length (stop step : Nat) :
    (rangeStep stop step).length = (stop + step - 1) / step := by
  simp [rangeStep]

theorem split_length (sp : CharacterTextSplitter) (text : List Char) :
    (sp.split text).length
      = (text.length + (sp.chunk_size - sp.chunk_overlap) - 1)
          / (sp.chunk_size - sp.chunk_overlap) := by
  simp [CharacterTextSplitter.split, rangeStep]

/-- C1: for a valid config, `split` returns, in order of increasing start
offset, exactly the slices `text[k*stride : k*stride + chunk_size]` for the
start offsets `k*stride < len(text)`; the empty text yields `[]`; and for
non-empty text the chunk count `N` is characterised by: chunk `N-1` is the
first whose start offset is `≥ len(text) - stride` (stated without natural
subtraction as `len ≤ (N-1)*stride + stride`, and every earlier chunk has
`k*stride + stride < len`). -/
theorem C1_split_characterization (sp : CharacterTextSplitter) (text : List Char)
    (hcs : 0 < sp.chunk_size) (hov : sp.chunk_overlap < sp.chunk_size) :
    sp.split text
        = (List.range (sp.split text).length).map
            (fun k => (text.drop (k * (sp.chunk_size - sp.chunk_overlap))).take
              sp.chunk_size)
    ∧ (∀ k, k < (sp.split text).length
          ↔ k * (sp.chunk_size - sp.chunk_overlap) < text.length)
    ∧ (text = [] → sp.split text = [])
    ∧ (text ≠ [] →
        text.length ≤ ((sp.split text).length - 1) * (sp.chunk_size - sp.chunk_overlap)
            + (sp.chunk_size - sp.chunk_overlap)
        ∧ ∀ k, k < (sp.split text).length - 1 →
            k * (sp.chunk_size - sp.chunk_overlap)
              + (sp.chunk_size - sp.chunk_overlap) < text.length) := by
  set s := sp.chunk_size - sp.chunk_overlap with hs_def
  have hs : 0 < s := by omega
  have hiff : ∀ k, k < (sp.split text).length ↔ k * s < text.length := by
    intro k
    rw [split_length, ← hs_def]
    exact lt_ceilDiv_iff text.length s k hs
  refine ⟨?_, hiff, ?_, ?_⟩
  · rw [split_length, ← hs_def]
    simp [CharacterTextSplitter.split, rangeStep, ← hs_def, List.map_map,
      Function.comp]
  · intro h
    subst h
    simp only [CharacterTextSplitter.split, rangeStep, List.length_nil,
      Nat.zero_add, List.map_eq_nil_iff, List.range_eq_nil]
    exact Nat.div_eq_of_lt (by omega)
  · intro hne
    have hlen : 0 < text.length := List.length_pos.mpr hne
    set N := (sp.split text).length with hN
    have hN1 : 0 < N := by
      rw [hiff 0]
      simpa using hlen
    constructor
    · by_contra hc
      push_neg at hc
      have : N * s < text.length := by
        have h' : N * s = (N - 1) * s + s := by
          have : N - 1 + 1 = N := by omega
          calc N * s = (N - 1 + 1) * s := by rw [this]
            _ = (N - 1) * s + s := by ring
        omega
      exact absurd ((hiff N).mpr this) (lt_irrefl N)
    · intro k hk
      have h1 : (k + 1) * s < text.length := (hiff (k + 1)).mp (by omega)
      calc k * s + s = (k + 1) * s := by ring
        _ < text.length := h1

/-- C1 witness: the characterization applied at `chunk_size = 3`,
`chunk_overlap = 1`, `text = "abcdefg"`. -/
theorem C1_split_characterization_witness :
    CharacterTextSplitter.split ⟨3, 1⟩ "abcdefg".data
      = (List.range (CharacterTextSplitter.split ⟨3, 1⟩ "abcdefg".data).length).map
          (fun k => ("abcdefg".data.drop (k * (3 - 1))).take 3) :=
  (C1_split_characterization ⟨3, 1⟩ "abcdefg".data (by decide) (by decide)).1

/-- Sanity check: `split` at size 3 / overlap 1 on "abcdefg". -/
theorem split_sanity :
    CharacterTextSplitter.split ⟨3, 1⟩ "abcdefg".data
      = ["abc".data, "cde".data, "efg".data, "g".data] := by decide

/-- C4: for a valid config, whenever chunk `i+1` is not the last chunk
(`i + 2 < N`) and the text is long enough (read as: chunk `i` is a full,
unclipped chunk, `i*stride + chunk_size ≤ len(text)`), chunks `i` and
`i+1` overlap in exactly `chunk_overlap` characters: the last
`chunk_overlap` characters of chunk `i` equal the first `chunk_overlap`
characters of chunk `i+1`, and that shared block has length exactly
`chunk_overlap`. -/
theorem C4_consecutive_overlap (sp : CharacterTextSplitter) (text : List Char)
    (i : Nat) (hcs : 0 < sp.chunk_size) (hov : sp.chunk_overlap < sp.chunk_size)
    (hlast : i + 2 < (sp.split text).length)
    (hlong : i * (sp.chunk_size - sp.chunk_overlap) + sp.chunk_size ≤ text.length) :
    let c := sp.split text
    let a := c.getD i []
    let b := c.getD (i + 1) []
    a.drop (a.length - sp.chunk_overlap) = b.take sp.chunk_overlap
    ∧ (a.drop (a.length - sp.chunk_overlap)).length = sp.chunk_overlap := by
  intro c a b
  set s := sp.chunk_size - sp.chunk_overlap with hs_def
  have hs : 0 < s := by omega
  have hcount : c.length = (text.length + s - 1) / s := by
    simpa [← hs_def] using split_length sp text
  have hlast' : i + 2 < c.length := hlast
  have hmul1 : (i + 1) * s = i * s + s := by ring
  have hcse : sp.chunk_size = s + sp.chunk_overlap := by omega
  have hget : ∀ j, j < c.length →
      c.getD j [] = (text.drop (j * s)).take sp.chunk_size := by
    intro j hj
    have hj' : j < (text.length + s - 1) / s := by rwa [hcount] at hj
    simp only [c, CharacterTextSplitter.split, rangeStep, ← hs_def]
    rw [List.getD_eq_getElem?_getD, List.getElem?_map, List.getElem?_map,
      List.getElem?_range hj']
    rfl
  have ha : a = (text.drop (i * s)).take sp.chunk_size :=
    hget i (by omega)
  have hb : b = (text.drop ((i + 1) * s)).take sp.chunk_size :=
    hget (i + 1) (by omega)
  have halen : a.length = sp.chunk_size := by
    rw [ha]
    simp only [List.length_take, List.length_drop]
    omega
  have hblen : sp.chunk_overlap ≤ text.length - (i + 1) * s := by
    omega
  have hdrop : a.drop (a.length - sp.chunk_overlap)
      = (text.drop ((i + 1) * s)).take sp.chunk_overlap := by
    rw [halen, ha, List.drop_take, List.drop_drop]
    have h1 : sp.chunk_size - (sp.chunk_size - sp.chunk_overlap) = sp.chunk_overlap := by
      omega
    rw [← hs_def, h1, hmul1]
  have htake : b.take sp.chunk_overlap
      = (text.drop ((i + 1) * s)).take sp.chunk_overlap := by
    rw [hb, List.take_take, min_eq_left (by omega)]
  refine ⟨by rw [hdrop, htake], ?_⟩
  rw [hdrop]
  simp only [List.length_take, List.length_drop]
  omega

/-- C4 witness: at `chunk_size = 3`, `chunk_overlap = 1`,
`text = "abcdefg"` and `i = 0`, chunks 0 and 1 (of 4) share exactly one
character. -/
theorem C4_consecutive_overlap_witness :
    (let c := CharacterTextSplitter.split ⟨3, 1⟩ "abcdefg".data
     let a := c.getD 0 []
     let b := c.getD 1 []
     a.drop (a.length - 1) = b.take 1 ∧ (a.drop (a.length - 1)).length = 1) :=
  C4_consecutive_overlap ⟨3, 1⟩ "abcdefg".data 0 (by decide) (by decide) (by decide)
    (by decide)

/-- C5: for every pair of integers with `chunk_overlap ≥ chunk_size`, the
constructor's assert fails at construction time with the
invalid-configuration message, so no splitter value is produced and
`split` can never be reached with such a configuration. -/
theorem C5_invalid_config_rejected (chunk_size chunk_overlap : Int)
    (h : chunk_size ≤ chunk_overlap) :
    CharacterTextSplitter.init chunk_size chunk_overlap
      = .error "Chunk size must be greater than chunk overlap" := by
  unfold CharacterTextSplitter.init
  rw [if_neg]
  omega

/-- C5 witness: the pair `(1000, 1000)` is rejected. -/
theorem C5_invalid_config_rejected_witness :
    CharacterTextSplitter.init 1000 1000
      = .error "Chunk size must be greater than chunk overlap" :=
  C5_invalid_config_rejected 1000 1000 (by decide)

/-! ### TextFileLoader -/

/-- One `(root, dirs, files)` triple yielded by `os.walk`. -/
structure WalkEntry where
  root : String
  dirs : List String
  files : List String
  deriving Repr, DecidableEq

/-- The filesystem, as the external collaborator the loader calls into:
existence checks (`os.path.isdir` / `os.path.isfile`), file contents
(`open(...).read()`, decoding included) and recursive directory
enumeration (`os.walk`). -/
structure FileSystem where
  isDir : String → Bool
  isFile : String → Bool
  read : String → String
  walk : String → List WalkEntry

/-- Python's `str.endswith(suffix)`: a character-level suffix test. -/
def strEndsWith (s suffix : String) : Bool :=
  suffix.data.isSuffixOf s.data

/-- Python's `str.startswith(pre)`: a character-level test. -/
def strStartsWith (s pre : String) : Bool :=
  pre.data.isPrefixOf s.data

/-- `os.path.join(a, b)` (POSIX, the only use here joins a walk root with
a file name). -/
def osPathJoin (a b : String) : String :=
  if strStartsWith b "/" then b
  else if a = "" ∨ strEndsWith a "/" then a ++ b
  else a ++ "/" ++ b

/-- The loader's state: `self.path`, `self.encoding`, `self.documents`. -/
structure TextFileLoader where
  path : String
  encoding : String
  documents : List String
  deriving Repr, DecidableEq

/-- `TextFileLoader.load_file`: appends the file's contents to
`self.documents`. -/
def TextFileLoader.load_file (fs : FileSystem) (ld : TextFileLoader) :
    TextFileLoader :=
  { ld with documents := ld.documents ++ [fs.read ld.path] }

/-- `TextFileLoader.load_directory`: `for root, _, files in os.walk(path):
for file in files: if file.endswith(".txt"): documents.append(read(...))`. -/
def TextFileLoader.load_directory (fs : FileSystem) (ld : TextFileLoader) :
    TextFileLoader :=
  (fs.walk ld.path).foldl
    (fun acc entry =>
      entry.files.foldl
        (fun acc2 file =>
          if strEndsWith file ".txt" then
            { acc2 with documents := acc2.documents ++ [fs.read (osPathJoin entry.root file)] }
          else acc2)
        acc)
    ld

/-- `TextFileLoader.load`: directory → `load_directory`; `.txt` file →
`load_file`; anything else raises `ValueError`. -/
def TextFileLoader.load (fs : FileSystem) (ld : TextFileLoader) :
    Except String TextFileLoader :=
  if fs.isDir ld.path then .ok (ld.load_directory fs)
  else if fs.isFile ld.path ∧ strEndsWith ld.path ".txt" then .ok (ld.load_file fs)
  else .error "Provided path is neither a valid directory nor a .txt file."

/-- `TextFileLoader.load_documents`: `self.load(); return self.documents`
(the updated loader is returned alongside the list the caller receives). -/
def TextFileLoader.load_documents (fs : FileSystem) (ld : TextFileLoader) :
    Except String (TextFileLoader × List String) :=
  (ld.load fs).map (fun ld' => (ld', ld'.documents))

/-- The list of documents a directory load produces: for every walk entry
in order, the contents of its `.txt` files in order. -/
def walkDocs (fs : FileSystem) (path : String) : List String :=
  (fs.walk path).flatMap
    (fun e => (e.files.filter (fun f => strEndsWith f ".txt")).map
      (fun f => fs.read (osPathJoin e.root f)))

theorem files_foldl_spec (fs : FileSystem) (root : String) (files : List String)
    (acc : TextFileLoader) :
    files.foldl
        (fun acc2 file =>
          if strEndsWith file ".txt" then
            { acc2 with documents := acc2.documents ++ [fs.read (osPathJoin root file)] }
          else acc2) acc
      = { acc with documents := acc.documents
            ++ ((files.filter (fun f => strEndsWith f ".txt")).map
                  (fun f => fs.read (osPathJoin root f))) } := by
  induction files generalizing acc with
  | nil => simp
  | cons f rest ih =>
    by_cases h : strEndsWith f ".txt" = true
    · simp [List.foldl_cons, h, ih]
    · simp [List.foldl_cons, h, ih]

theorem load_directory_spec (fs : FileSystem) (ld : TextFileLoader) :
    ld.load_directory fs
      = { ld with documents := ld.documents ++ walkDocs fs ld.path } := by
  unfold TextFileLoader.load_directory walkDocs
  generalize fs.walk ld.path = entries
  induction entries generalizing ld with
  | nil => simp
  | cons e rest ih =>
    rw [List.foldl_cons, files_foldl_spec, ih]
    simp

/-- C8: a path that is neither a directory nor an existing `.txt` file is
rejected with the invalid-path `ValueError` raised by `load`.  The
filesystem's `read` and `walk` oracles are universally quantified and the
result is the same error for all of them, so no I/O beyond the two
existence checks can influence (or be caused by) this outcome, and no
document is loaded. -/
theorem C8_invalid_path_rejected (fs : FileSystem) (ld : TextFileLoader)
    (hdir : fs.isDir ld.path = false)
    (hfile : fs.isFile ld.path = false ∨ strEndsWith ld.path ".txt" = false) :
    TextFileLoader.load fs ld
      = .error "Provided path is neither a valid directory nor a .txt file." := by
  unfold TextFileLoader.load
  rcases hfile with h | h <;> simp [hdir, h]

/-- A filesystem with no directories and no files (every existence check
fails). -/
def fsEmptyExample : FileSystem where
  isDir := fun _ => false
  isFile := fun _ => false
  read := fun _ => ""
  walk := fun _ => []

/-- C8 witness: loading a missing path fails with the invalid-path error. -/
theorem C8_invalid_path_rejected_witness :
    TextFileLoader.load fsEmptyExample ⟨"data/missing.md", "utf-8", []⟩
      = .error "Provided path is neither a valid directory nor a .txt file." :=
  C8_invalid_path_rejected fsEmptyExample ⟨"data/missing.md", "utf-8", []⟩
    rfl (Or.inl rfl)

/-- C9: loading a directory appends, in walk order, exactly one document
(the file's contents) per contained file whose name ends in `.txt`;
files with any other extension are ignored. -/
theorem C9_directory_loads_txt_files (fs : FileSystem) (ld : TextFileLoader)
    (hdir : fs.isDir ld.path = true) :
    TextFileLoader.load fs ld
        = .ok { ld with documents := ld.documents ++ walkDocs fs ld.path }
    ∧ (walkDocs fs ld.path).length
        = ((fs.walk ld.path).flatMap
            (fun e => e.files.filter (fun f => strEndsWith f ".txt"))).length := by
  constructor
  · unfold TextFileLoader.load
    rw [load_directory_spec]
    simp [hdir]
  · unfold walkDocs
    generalize fs.walk ld.path = entries
    induction entries with
    | nil => rfl
    | cons e rest ih => simp [List.flatMap_cons, ih]

/-- A directory `docs` holding three `.txt` files and one `.md` file. -/
def fsDirExample : FileSystem where
  isDir := fun p => p = "docs"
  isFile := fun _ => false
  read := fun _ => "hello"
  walk := fun p =>
    if p = "docs" then [⟨"docs", [], ["a.txt", "b.txt", "c.txt", "notes.md"]⟩]
    else []

/-- C9 witness: the three `.txt` files load as exactly 3 documents and the
`.md` file is ignored. -/
theorem C9_directory_loads_txt_files_witness :
    TextFileLoader.load fsDirExample ⟨"docs", "utf-8", []⟩
        = .ok ⟨"docs", "utf-8", ["hello", "hello", "hello"]⟩
    ∧ (walkDocs fsDirExample "docs").length = 3 := by
  have h := C9_directory_loads_txt_files fsDirExample ⟨"docs", "utf-8", []⟩ rfl
  refine ⟨?_, by decide⟩
  rw [h.1]
  exact congrArg Except.ok (by decide)

/-! ### YouTubeLoader -/

/-- A character rejected by the capture class `[^&\n?#]`. -/
def stopChar (c : Char) : Bool :=
  decide (c = '&') || decide (c = '\n') || decide (c = '?') || decide (c = '#')

/-- One regex alternative anchored at the head of `cs`: the literal `lit`
followed by the capture group `([^&\n?#]+)` (greedy, at least one
character); returns the group. -/
def captureAfter (lit cs : List Char) : Option (List Char) :=
  if lit.isPrefixOf cs then
    let g := (cs.drop lit.length).takeWhile (fun c => !stopChar c)
    if g.isEmpty then none else some g
  else none

/-- The first pattern
`(?:youtube\.com\/watch\?v=|youtu\.be\/|youtube\.com\/embed\/)([^&\n?#]+)`
matched at the head of `cs`: alternatives tried left to right. -/
def matchPat1At (cs : List Char) : Option (List Char) :=
  match captureAfter "youtube.com/watch?v=".data cs with
  | some g => some g
  | none =>
    match captureAfter "youtu.be/".data cs with
    | some g => some g
    | none => captureAfter "youtube.com/embed/".data cs

/-- The second pattern `youtube\.com\/v\/([^&\n?#]+)` at the head of `cs`. -/
def matchPat2At (cs : List Char) : Option (List Char) :=
  captureAfter "youtube.com/v/".data cs

/-- The third pattern `youtube\.com\/embed\/([^&\n?#]+)` at the head of
`cs`. -/
def matchPat3At (cs : List Char) : Option (List Char) :=
  captureAfter "youtube.com/embed/".data cs

/-- `re.search`: try the pattern at every start position, leftmost match
first. -/
def reSearch (matchAt : List Char → Option (List Char)) :
    List Char → Option (List Char)
  | [] => matchAt []
  | c :: cs =>
    match matchAt (c :: cs) with
    | some g => some g
    | none => reSearch matchAt cs

/-- `YouTubeLoader._extract_video_id`: the patterns applied in their fixed
order, returning the first match's first capture group; raises
`ValueError` when none matches. -/
def extractVideoId (url : String) : Except String String :=
  match reSearch matchPat1At url.data with
  | some g => .ok (String.mk g)
  | none =>
    match reSearch matchPat2At url.data with
    | some g => .ok (String.mk g)
    | none =>
      match reSearch matchPat3At url.data with
      | some g => .ok (String.mk g)
      | none => .error ("Could not extract video ID from URL: " ++ url)

/-- The loader's state, with fields in the order `__init__` assigns
them.  The decoded oEmbed JSON record is modelled as an association list
of its string fields. -/
structure YouTubeLoader where
  url : String
  include_metadata : Bool
  documents : List String
  metadata : List (String × String)
  video_id : String
  deriving Repr, DecidableEq

/-- `YouTubeLoader.__init__(url, include_metadata)`: stores the arguments,
starts with no documents and empty metadata, and extracts the video id —
a failed extraction raises before any network activity is possible. -/
def YouTubeLoader.init (url : String) (include_metadata : Bool) :
    Except String YouTubeLoader :=
  match extractVideoId url with
  | .ok vid => .ok ⟨url, include_metadata, [], [], vid⟩
  | .error e => .error e

/-- Python's `dict.get(key, default)` over the modelled JSON record. -/
def dictGet (d : List (String × String)) (key dflt : String) : String :=
  match d.find? (fun p => decide (p.1 = key)) with
  | some p => p.2
  | none => dflt

/-- The outbound network calls a load can make, in the order they are
issued. -/
inductive NetEvent where
  | metadataFetch
  | transcriptFetchEn
  | transcriptFetchAny
  deriving Repr, DecidableEq

/-- `YouTubeLoader._get_video_metadata`: one oEmbed GET whose outcome is
the oracle `fetched`; any failure is caught and replaced by the
placeholder record (whose `provider_name` is `"YouTube"`). -/
def getVideoMetadata (fetched : Except String (List (String × String))) :
    List (String × String) :=
  match fetched with
  | .ok d => d
  | .error _ =>
    [("title", "Unknown"), ("author_name", "Unknown"), ("provider_name", "YouTube")]

/-- `YouTubeLoader._get_transcript`: fetch preferring English, on any
failure retry for any language, join the segment texts with single
spaces; if the retry also fails, raise `ValueError` carrying the video id
and the cause.  Returns the network calls made and the outcome. -/
def getTranscript (video_id : String)
    (fetchEn fetchAny : Except String (List String)) :
    List NetEvent × Except String String :=
  match fetchEn with
  | .ok segs => ([.transcriptFetchEn], .ok (String.intercalate " " segs))
  | .error _ =>
    match fetchAny with
    | .ok segs =>
      ([.transcriptFetchEn, .transcriptFetchAny], .ok (String.intercalate " " segs))
    | .error e =>
      ([.transcriptFetchEn, .transcriptFetchAny],
        .error ("Could not retrieve transcript for video " ++ video_id ++ ": " ++ e))

/-- The f-string template of `load` assembling the metadata document. -/
def formatDocument (title author video_id url transcript : String) : String :=
  "Title: " ++ title ++ "\nAuthor: " ++ author ++ "\nVideo ID: " ++ video_id
    ++ "\nURL: " ++ url ++ "\n\nTranscript:\n" ++ transcript

/-- `YouTubeLoader.load`: gets the transcript first (a failure there is
re-raised wrapped in "Failed to load YouTube video: "), then — only if
metadata was requested — the best-effort metadata fetch, and appends the
assembled document.  Returns the ordered network calls made alongside the
outcome. -/
def YouTubeLoader.load (ld : YouTubeLoader)
    (metaFetch : Except String (List (String × String)))
    (fetchEn fetchAny : Except String (List String)) :
    List NetEvent × Except String YouTubeLoader :=
  let t := getTranscript ld.video_id fetchEn fetchAny
  match t.2 with
  | .error e => (t.1, .error ("Failed to load YouTube video: " ++ e))
  | .ok transcript =>
    if ld.include_metadata then
      let md := getVideoMetadata metaFetch
      let document := formatDocument (dictGet md "title" "Unknown")
        (dictGet md "author_name" "Unknown") ld.video_id ld.url transcript
      (t.1 ++ [.metadataFetch],
        .ok { ld with metadata := md, documents := ld.documents ++ [document] })
    else
      (t.1, .ok { ld with documents := ld.documents ++ [transcript] })

/-- `YouTubeLoader.load_documents`: `self.load(); return self.documents`. -/
def YouTubeLoader.load_documents (ld : YouTubeLoader)
    (metaFetch : Except String (List (String × String)))
    (fetchEn fetchAny : Except String (List String)) :
    List NetEvent × Except String (YouTubeLoader × List String) :=
  let r := ld.load metaFetch fetchEn fetchAny
  (r.1, r.2.map (fun ld' => (ld', ld'.documents)))

/-- A remote load end to end: construct the loader (which performs no
network call), then run `load`. -/
def loadFromUrl (url : String) (include_metadata : Bool)
    (metaFetch : Except String (List (String × String)))
    (fetchEn fetchAny : Except String (List String)) :
    List NetEvent × Except String YouTubeLoader :=
  match YouTubeLoader.init url include_metadata with
  | .error e => ([], .error e)
  | .ok ld => ld.load metaFetch fetchEn fetchAny

/-- Sanity check: the standard watch URL shape. -/
theorem extract_watch_sanity :
    extractVideoId "https://www.youtube.com/watch?v=dQw4w9WgXcQ&t=10"
      = .ok "dQw4w9WgXcQ" := by rfl

/-- Sanity check: the short-link shape, capture stopping at `?`. -/
theorem extract_short_sanity :
    extractVideoId "https://youtu.be/abc123?t=4" = .ok "abc123" := by rfl

/-- Sanity check: the embed shape. -/
theorem extract_embed_sanity :
    extractVideoId "https://www.youtube.com/embed/xyz" = .ok "xyz" := by rfl

/-- A loader as constructed from the short-link URL for video id `abc`. -/
def ytExample : YouTubeLoader :=
  ⟨"https://youtu.be/abc", true, [], [], "abc"⟩

/-- C6: if both the preferred-language fetch and the any-language retry
fail, `load` fails: `_get_transcript` raises `ValueError` carrying the
video identifier and the underlying cause, which `load` re-raises wrapped
in its own message; no document is produced (the result is an error, not
an updated loader). -/
theorem C6_transcript_failure_fatal (ld : YouTubeLoader)
    (metaFetch : Except String (List (String × String))) (e1 e2 : String) :
    (ld.load metaFetch (.error e1) (.error e2)).2
      = .error ("Failed to load YouTube video: "
          ++ ("Could not retrieve transcript for video " ++ ld.video_id
                ++ ": " ++ e2)) := rfl

/-- C2 counterexample: with the metadata fetch failing (and the transcript
available), the stored placeholder record is
`title="Unknown", author_name="Unknown", provider_name="YouTube"` — its
provider field is `"YouTube"`, not `"Unknown"` as the claim states. -/
theorem C2_counterexample :
    ((ytExample.load (.error "network down") (.ok ["hello", "world"])
        (.ok [])).2.toOption.map (fun l => l.metadata))
      = some [("title", "Unknown"), ("author_name", "Unknown"),
          ("provider_name", "YouTube")]
    ∧ ("YouTube" : String) ≠ "Unknown" := ⟨rfl, by decide⟩

/-- C2 amended: if the remote metadata fetch fails in any way, `load`
does not fail: the resulting document still contains the transcript body
(as the final section of the template) and the metadata used is the
placeholder record with `title="Unknown"`, `author="Unknown"` and
`provider="YouTube"` (the code's placeholder provider, not `"Unknown"`). -/
theorem C2_amended_metadata_best_effort (ld : YouTubeLoader)
    (err : String) (segs : List String) (fetchAny : Except String (List String))
    (h : ld.include_metadata = true) :
    (ld.load (.error err) (.ok segs) fetchAny).2
      = .ok { ld with
          metadata := [("title", "Unknown"), ("author_name", "Unknown"),
            ("provider_name", "YouTube")],
          documents := ld.documents
            ++ [formatDocument "Unknown" "Unknown" ld.video_id ld.url
                  (String.intercalate " " segs)] } := by
  simp only [YouTubeLoader.load, getTranscript, getVideoMetadata, h, if_true]
  rfl

/-- C2 witness: the amended statement at a concrete failing metadata
fetch. -/
theorem C2_amended_metadata_best_effort_witness :
    (ytExample.load (.error "boom") (.ok ["hi", "there"]) (.ok [])).2
      = .ok ⟨"https://youtu.be/abc", true,
          ["Title: Unknown\nAuthor: Unknown\nVideo ID: abc\nURL: https://youtu.be/abc\n\nTranscript:\nhi there"],
          [("title", "Unknown"), ("author_name", "Unknown"),
            ("provider_name", "YouTube")], "abc"⟩ := by
  have h := C2_amended_metadata_best_effort ytExample "boom" ["hi", "there"]
    (.ok []) rfl
  rw [h]
  exact congrArg Except.ok (by decide)

/-- C3 counterexample: in a metadata-requested load, the network trace is
transcript fetch *then* metadata fetch — not metadata before transcript as
the claim orders the steps — and a failing metadata fetch does not abort
the load. -/
theorem C3_counterexample :
    (ytExample.load (.ok [("title", "T")]) (.ok ["hi"]) (.ok [])).1
      = [NetEvent.transcriptFetchEn, NetEvent.metadataFetch]
    ∧ ((ytExample.load (.error "meta down") (.ok ["hi"]) (.ok [])).2).isOk
        = true := ⟨rfl, rfl⟩

/-- C3 amended: a metadata-requested load runs
`Uninitialized → IdentifierExtracted → TranscriptFetched →
MetadataFetched → Assembled`: the identifier is extracted at construction
and a failure there aborts with no network call; the transcript fetch
(with its optional any-language retry) precedes the metadata fetch; a
transcript failure aborts the load before any metadata fetch happens; and
a failing metadata fetch does not abort. -/
theorem C3_amended_step_order (ld : YouTubeLoader)
    (mf : Except String (List (String × String)))
    (segs segs2 : List String) (e1 e2 err : String)
    (fa : Except String (List String))
    (h : ld.include_metadata = true) :
    (ld.load mf (.ok segs) fa).1
        = [NetEvent.transcriptFetchEn, NetEvent.metadataFetch]
    ∧ (ld.load mf (.error e1) (.ok segs2)).1
        = [NetEvent.transcriptFetchEn, NetEvent.transcriptFetchAny,
            NetEvent.metadataFetch]
    ∧ (ld.load mf (.error e1) (.error e2)).1
        = [NetEvent.transcriptFetchEn, NetEvent.transcriptFetchAny]
    ∧ ((ld.load mf (.error e1) (.error e2)).2).isOk = false
    ∧ ((ld.load (.error err) (.ok segs) fa).2).isOk = true
    ∧ (∀ url b, extractVideoId url = .error e1 →
        loadFromUrl url b mf (.ok segs) fa = ([], .error e1)) := by
  refine ⟨?_, ?_, rfl, rfl, ?_, ?_⟩
  · simp only [YouTubeLoader.load, getTranscript, h, if_true]
    rfl
  · simp only [YouTubeLoader.load, getTranscript, h, if_true]
    rfl
  · simp only [YouTubeLoader.load, getTranscript, h, if_true]
    rfl
  · intro url b hurl
    unfold loadFromUrl YouTubeLoader.init
    rw [hurl]

/-- C3 witness: the amended step order at a concrete successful load. -/
theorem C3_amended_step_order_witness :
    (ytExample.load (.ok []) (.ok ["hi"]) (.ok [])).1
      = [NetEvent.transcriptFetchEn, NetEvent.metadataFetch] :=
  (C3_amended_step_order ytExample (.ok []) ["hi"] [] "e1" "e2" "err"
    (.ok []) rfl).1

/-- C7: a URL matched by none of the three patterns makes the whole load
fail at construction with the invalid-identifier `ValueError`, the
network trace being empty (zero network calls, whatever the transport
oracles would answer); a URL that matches yields as identifier the first
capture group of the first matching pattern in the fixed order. -/
theorem C7_identifier_extraction (url : String) (b : Bool)
    (mf : Except String (List (String × String)))
    (fe fa : Except String (List String)) :
    (reSearch matchPat1At url.data = none →
      reSearch matchPat2At url.data = none →
      reSearch matchPat3At url.data = none →
      loadFromUrl url b mf fe fa
        = ([], .error ("Could not extract video ID from URL: " ++ url)))
    ∧ (∀ g, reSearch matchPat1At url.data = some g →
        YouTubeLoader.init url b = .ok ⟨url, b, [], [], String.mk g⟩)
    ∧ (∀ g, reSearch matchPat1At url.data = none →
        reSearch matchPat2At url.data = some g →
        YouTubeLoader.init url b = .ok ⟨url, b, [], [], String.mk g⟩)
    ∧ (∀ g, reSearch matchPat1At url.data = none →
        reSearch matchPat2At url.data = none →
        reSearch matchPat3At url.data = some g →
        YouTubeLoader.init url b = .ok ⟨url, b, [], [], String.mk g⟩) := by
  refine ⟨?_, ?_, ?_, ?_⟩
  · intro h1 h2 h3
    unfold loadFromUrl YouTubeLoader.init extractVideoId
    rw [h1, h2, h3]
  · intro g h1
    unfold YouTubeLoader.init extractVideoId
    rw [h1]
  · intro g h1 h2
    unfold YouTubeLoader.init extractVideoId
    rw [h1, h2]
  · intro g h1 h2 h3
    unfold YouTubeLoader.init extractVideoId
    rw [h1, h2, h3]

/-- C7 witness: `"https://example.com/video"` matches no pattern, so the
load fails with the invalid-identifier error and an empty network trace. -/
theorem C7_identifier_extraction_witness :
    loadFromUrl "https://example.com/video" true (.ok []) (.ok ["hi"]) (.ok [])
      = ([], .error ("Could not extract video ID from URL: "
          ++ "https://example.com/video")) :=
  (C7_identifier_extraction "https://example.com/video" true (.ok [])
    (.ok ["hi"]) (.ok [])).1 rfl rfl rfl

/-! ### C10: loader state accumulates across loads -/

/-- The documents one successful `TextFileLoader.load` call appends,
determined by the filesystem and the path alone. -/
def loadDelta (fs : FileSystem) (p : String) : List String :=
  if fs.isDir p then walkDocs fs p
  else if fs.isFile p ∧ strEndsWith p ".txt" then [fs.read p]
  else []

theorem load_ok_eq (fs : FileSystem) (ld ld' : TextFileLoader)
    (h : TextFileLoader.load fs ld = .ok ld') :
    ld' = { ld with documents := ld.documents ++ loadDelta fs ld.path } := by
  unfold TextFileLoader.load at h
  unfold loadDelta
  by_cases h1 : fs.isDir ld.path = true
  · rw [load_directory_spec] at h
    simp only [h1, if_true] at h ⊢
    exact (Except.ok.injEq _ _ ▸ h).symm
  · by_cases h2 : fs.isFile ld.path = true ∧ strEndsWith ld.path ".txt" = true
    · simp only [h1, h2, if_true, if_false, Bool.false_eq_true] at h ⊢
      unfold TextFileLoader.load_file at h
      simp only [and_self, if_true] at h ⊢
      exact (Except.ok.injEq _ _ ▸ h).symm
    · simp only [h1, h2, if_false, Bool.false_eq_true] at h
      exact absurd h (by simp)

/-- The single document one successful `YouTubeLoader.load` call appends,
determined by the loader's identity fields and the oracles alone. -/
def ytDelta (video_id url : String) (im : Bool)
    (mf : Except String (List (String × String)))
    (fetchEn fetchAny : Except String (List String)) : List String :=
  match (getTranscript video_id fetchEn fetchAny).2 with
  | .error _ => []
  | .ok transcript =>
    if im then
      [formatDocument (dictGet (getVideoMetadata mf) "title" "Unknown")
        (dictGet (getVideoMetadata mf) "author_name" "Unknown")
        video_id url transcript]
    else [transcript]

theorem yt_load_ok_eq (ld ld' : YouTubeLoader)
    (mf : Except String (List (String × String)))
    (fe fa : Except String (List String))
    (h : (ld.load mf fe fa).2 = .ok ld') :
    ld'.url = ld.url ∧ ld'.video_id = ld.video_id
    ∧ ld'.include_metadata = ld.include_metadata
    ∧ ld'.documents
        = ld.documents
          ++ ytDelta ld.video_id ld.url ld.include_metadata mf fe fa := by
  rcases fe with e | segs
  · rcases fa with e2 | segs2
    · simp [YouTubeLoader.load, getTranscript] at h
    · by_cases him : ld.include_metadata = true
      · simp [YouTubeLoader.load, getTranscript, him] at h
        subst h
        simp [ytDelta, getTranscript, him]
      · simp [YouTubeLoader.load, getTranscript, him] at h
        subst h
        simp [ytDelta, getTranscript, him]
  · by_cases him : ld.include_metadata = true
    · simp [YouTubeLoader.load, getTranscript, him] at h
      subst h
      simp [ytDelta, getTranscript, him]
    · simp [YouTubeLoader.load, getTranscript, him] at h
      subst h
      simp [ytDelta, getTranscript, him]

/-- C10: loader state accumulates.  For both loaders, a successful load
appends its newly loaded documents to `documents`, leaving previous
entries untouched, so two successful loads of the same loader (under the
same filesystem / oracles) leave each document twice, and the second
`load_documents` call returns the doubled list. -/
theorem C10_documents_accumulate
    (fs : FileSystem) (tld tld' tld'' : TextFileLoader)
    (yld yld' yld'' : YouTubeLoader)
    (mf : Except String (List (String × String)))
    (fe fa : Except String (List String))
    (h1 : TextFileLoader.load fs tld = .ok tld')
    (h2 : TextFileLoader.load fs tld' = .ok tld'')
    (h3 : (yld.load mf fe fa).2 = .ok yld')
    (h4 : (yld'.load mf fe fa).2 = .ok yld'') :
    (∃ d, tld'.documents = tld.documents ++ d
        ∧ tld''.documents = tld.documents ++ (d ++ d))
    ∧ TextFileLoader.load_documents fs tld' = .ok (tld'', tld''.documents)
    ∧ (∃ d, yld'.documents = yld.documents ++ d
        ∧ yld''.documents = yld.documents ++ (d ++ d))
    ∧ (YouTubeLoader.load_documents yld' mf fe fa).2
        = .ok (yld'', yld''.documents) := by
  have e1 := load_ok_eq fs tld tld' h1
  have e2 := load_ok_eq fs tld' tld'' h2
  have g3 := yt_load_ok_eq yld yld' mf fe fa h3
  have g4 := yt_load_ok_eq yld' yld'' mf fe fa h4
  refine ⟨⟨loadDelta fs tld.path, ?_, ?_⟩, ?_, ?_, ?_⟩
  · rw [e1]
  · rw [e2, e1]
    simp [List.append_assoc]
  · unfold TextFileLoader.load_documents
    rw [h2]
    rfl
  · refine ⟨ytDelta yld.video_id yld.url yld.include_metadata mf fe fa,
      g3.2.2.2, ?_⟩
    rw [g4.2.2.2, g3.2.2.2, g3.1, g3.2.1, g3.2.2.1]
    simp [List.append_assoc]
  · unfold YouTubeLoader.load_documents
    simp only [h4]
    rfl

/-- A filesystem holding a single text file `a.txt` with contents "x". -/
def fsFileExample : FileSystem where
  isDir := fun _ => false
  isFile := fun p => decide (p = "a.txt")
  read := fun _ => "x"
  walk := fun _ => []

/-- C10 witness: loading the single-file loader twice accumulates
`["x", "x"]`, and loading the YouTube loader twice accumulates the same
formatted document twice. -/
theorem C10_documents_accumulate_witness :
    (∃ d, (["x"] : List String) = [] ++ d
        ∧ (["x", "x"] : List String) = [] ++ (d ++ d))
    ∧ TextFileLoader.load_documents fsFileExample ⟨"a.txt", "utf-8", ["x"]⟩
        = .ok (⟨"a.txt", "utf-8", ["x", "x"]⟩, ["x", "x"])
    ∧ (∃ d,
        (["Title: Unknown\nAuthor: Unknown\nVideo ID: abc\nURL: https://youtu.be/abc\n\nTranscript:\nhi"]
            : List String) = [] ++ d
        ∧ (["Title: Unknown\nAuthor: Unknown\nVideo ID: abc\nURL: https://youtu.be/abc\n\nTranscript:\nhi",
            "Title: Unknown\nAuthor: Unknown\nVideo ID: abc\nURL: https://youtu.be/abc\n\nTranscript:\nhi"]
            : List String) = [] ++ (d ++ d))
    ∧ (YouTubeLoader.load_documents
          ⟨"https://youtu.be/abc", true,
            ["Title: Unknown\nAuthor: Unknown\nVideo ID: abc\nURL: https://youtu.be/abc\n\nTranscript:\nhi"],
            [], "abc"⟩ (.error "down") (.ok ["hi"]) (.ok [])).2
        = .ok (⟨"https://youtu.be/abc", true,
            ["Title: Unknown\nAuthor: Unknown\nVideo ID: abc\nURL: https://youtu.be/abc\n\nTranscript:\nhi",
              "Title: Unknown\nAuthor: Unknown\nVideo ID: abc\nURL: https://youtu.be/abc\n\nTranscript:\nhi"],
            [("title", "Unknown"), ("author_name", "Unknown"),
              ("provider_name", "YouTube")], "abc"⟩,
            ["Title: Unknown\nAuthor: Unknown\nVideo ID: abc\nURL: https://youtu.be/abc\n\nTranscript:\nhi",
              "Title: Unknown\nAuthor: Unknown\nVideo ID: abc\nURL: https://youtu.be/abc\n\nTranscript:\nhi"]) := by
  have h := C10_documents_accumulate fsFileExample
    ⟨"a.txt", "utf-8", []⟩ ⟨"a.txt", "utf-8", ["x"]⟩ ⟨"a.txt", "utf-8", ["x", "x"]⟩
    ytExample
    ⟨"https://youtu.be/abc", true,
      ["Title: Unknown\nAuthor: Unknown\nVideo ID: abc\nURL: https://youtu.be/abc\n\nTranscript:\nhi"],
      [("title", "Unknown"), ("author_name", "Unknown"),
        ("provider_name", "YouTube")], "abc"⟩
    ⟨"https://youtu.be/abc", true,
      ["Title: Unknown\nAuthor: Unknown\nVideo ID: abc\nURL: https://youtu.be/abc\n\nTranscript:\nhi",
        "Title: Unknown\nAuthor: Unknown\nVideo ID: abc\nURL: https://youtu.be/abc\n\nTranscript:\nhi"],
      [("title", "Unknown"), ("author_name", "Unknown"),
        ("provider_name", "YouTube")], "abc"⟩
    (.error "down") (.ok ["hi"]) (.ok [])
    (by rfl) (by rfl) (by rfl) (by rfl)
  exact h

end TextUtils
